import Mathlib

/-!
Verification of the trial-sequencing core of the LUIZ repository.

The repository holds two pygame experiment runners:
  * `src/tarefa3/tarefa3.py` — a Contextual Cueing Task (CCT), and
  * `src/tarefa4/tarefa4.py` — an Iowa Gambling Task (IGT).

This file shallowly embeds the trial-generation, state-machine and
aggregation logic of both programs.

Modelling conventions:
  * Randomness (`random.sample`, `random.random`, `random.choice`) is
    modelled by explicit oracle functions supplied as parameters; the
    embedding is then proved for every oracle, which covers every draw
    the Python library could produce.  `random.sample`'s extensional
    contract (`k` distinct elements of the population, `ValueError`
    when `k` exceeds the population size) is realised by an explicit
    selection-without-replacement recursion driven by the oracle.
  * Wall-clock time (`time.time()`, float seconds in the source) is
    modelled by exact integer milliseconds.  The source rounds every
    recorded reaction time to 3 decimals, i.e. to whole milliseconds,
    so the unit change loses nothing that the programs persist.
  * Raising (`random.sample` on an oversized request, indexing an empty
    list) is modelled by `Option.none`.
  * `pygame` rendering is ignored; the input-event queue is modelled
    explicitly: handlers that call `pygame.event.get()` drain the queue,
    the handlers that never call it (the CCT fixation screen, the IGT
    feedback screen) leave queued events untouched.
  * `sys.exit()` / falling out of the main loop is modelled by a
    terminal flag on the machine state; file persistence
    (`save_results` / `_salvar_dados`) is modelled by a field holding
    the persisted log, `none` while nothing has been written.
-/

namespace CCT

/-! ### Experiment constants (src/tarefa3/tarefa3.py, lines 27-58) -/

def WIDTH : Int := 800
def HEIGHT : Int := 600
def GRID_SIZE : Nat := 6
def CELL_SIZE : Int := 80
def NUM_REPEATED_CONFIGS : Nat := 12
def NUM_NOVEL_CONFIGS : Nat := 12
def NUM_BLOCKS : Nat := 5
def NUM_ITEMS : Nat := 12
def GRID_START_X : Int := (WIDTH - GRID_SIZE * CELL_SIZE) / 2
def GRID_START_Y : Int := (HEIGHT - GRID_SIZE * CELL_SIZE) / 2
def STIM_SIZE : Int := 30

/-- Fixation duration: 0.5 s in the source, in milliseconds here. -/
def FIXATION_DURATION : Int := 500

/-! ### Stimulus (src/tarefa3/tarefa3.py, lines 60-111) -/

structure Stimulus where
  stim_type : Char          -- 'T' for the target, 'L' for a distractor
  position : Nat × Nat      -- grid cell
  rotation : Nat            -- degrees: 0, 90, 180 or 270
  deriving DecidableEq, Repr

instance : Inhabited Stimulus := ⟨⟨'T', (0, 0), 0⟩⟩

/-- Screen centre of the stimulus, computed from the grid cell exactly as in
`Stimulus.__init__`. -/
def Stimulus.screen_pos (s : Stimulus) : Int × Int :=
  (GRID_START_X + s.position.1 * CELL_SIZE + CELL_SIZE / 2,
   GRID_START_Y + s.position.2 * CELL_SIZE + CELL_SIZE / 2)

/-- Circular hit test of `Stimulus.contains_point`: squared Euclidean distance
to the screen centre compared with the squared radius `STIM_SIZE // 2`. -/
def Stimulus.contains_point (s : Stimulus) (point : Int × Int) : Bool :=
  let radius := STIM_SIZE / 2
  (point.1 - s.screen_pos.1) ^ 2 + (point.2 - s.screen_pos.2) ^ 2 ≤ radius ^ 2

/-! ### Sampling without replacement (`random.sample`) -/

/-- Selection-without-replacement core: the oracle `rand` picks, at each step,
an index into the remaining population; the chosen element is removed.  Every
output of Python's `random.sample(pop, k)` (for `k ≤ |pop|`) is the result of
this recursion for some oracle, and conversely. -/
def sampleAux (rand : Nat → Nat) : Nat → Nat → List (Nat × Nat) → List (Nat × Nat)
  | _, 0, _ => []
  | _, _ + 1, [] => []
  | step, k + 1, p :: pop =>
      let j := rand step % (p :: pop).length
      (p :: pop).getD j default :: sampleAux rand (step + 1) k ((p :: pop).eraseIdx j)

/-- `random.sample(pop, k)`: raises `ValueError` (here: `none`) when the
requested sample is larger than the population. -/
def randomSample (pop : List (Nat × Nat)) (k : Nat) (rand : Nat → Nat) :
    Option (List (Nat × Nat)) :=
  if k ≤ pop.length then some (sampleAux rand 0 k pop) else none

/-- `random.choice([0, 90, 180, 270])`, driven by an oracle value. -/
def rotChoice (r : Nat) : Nat := [0, 90, 180, 270].getD (r % 4) 0

/-! ### Configuration generation (src/tarefa3/tarefa3.py, lines 113-142) -/

/-- The cell list built by `Configuration.generate`:
`[(x, y) for x in range(GRID_SIZE) for y in range(GRID_SIZE)]`. -/
def grid_positions (gridSize : Nat) : List (Nat × Nat) :=
  (List.range gridSize).flatMap fun x => (List.range gridSize).map fun y => (x, y)

/-- Body of `Configuration.generate`, with the module constants `GRID_SIZE`
and `NUM_ITEMS` as parameters and the two random sources as oracles
(`posRand` drives `random.sample`, `rotRand i` drives the `i`-th call of
`random.choice` on the rotation list).  The first sampled cell becomes the
target `'T'`; the remaining cells become distractors `'L'`.  `none` models
the `ValueError` of an oversized sample and the `IndexError` of
`selected_positions[0]` on an empty sample. -/
def generate (gridSize itemCount : Nat) (posRand rotRand : Nat → Nat) :
    Option (List Stimulus) :=
  match randomSample (grid_positions gridSize) itemCount posRand with
  | none => none
  | some selected_positions =>
    match selected_positions with
    | [] => none
    | target_pos :: rest =>
      some (⟨'T', target_pos, rotChoice (rotRand 0)⟩ ::
        rest.enum.map fun p => ⟨'L', p.2, rotChoice (rotRand (p.1 + 1))⟩)

structure Configuration where
  config_id : Int
  is_repeated : Bool
  stimuli : List Stimulus
  deriving DecidableEq, Repr

instance : Inhabited Configuration := ⟨⟨-1, false, []⟩⟩

/-- `self.target`: the first stimulus appended by `generate`. -/
def Configuration.target (c : Configuration) : Stimulus := c.stimuli.getD 0 default

/-! ### Click handling inside `run_trial` (src/tarefa3/tarefa3.py, lines 312-326) -/

/-- Outcome of a left click at `pos` during a trial: `some is_correct` when the
trial advances and records, `none` when the click is discarded.  Mirrors the
`MOUSEBUTTONDOWN` branch of `Experiment.run_trial`: first the target's hit
region is tested; otherwise the stimulus list is scanned for any hit. -/
def processClick (cfg : Configuration) (pos : Int × Int) : Option Bool :=
  if cfg.target.contains_point pos then some true
  else
    match cfg.stimuli.find? fun stim => stim.contains_point pos with
    | some _ => some false
    | none => none

/-! ### The CCT session state machine (src/tarefa3/tarefa3.py, lines 149-493)

One `Frame` is one iteration of the `Experiment.run` loop: a wall-clock
reading plus the input events that arrived since the previous iteration.
Events accumulate in `pending` (pygame's queue); handlers that call
`pygame.event.get()` drain it, `show_fixation` does not.  `sys.exit()` is
the `exited` flag; `save_results` writing the CSV is the `saved` field. -/

inductive Key where
  | space
  | escape
  | other
  deriving DecidableEq, Repr

inductive CCTEvent where
  | quit
  | key (k : Key)
  | click (button : Nat) (pos : Int × Int)
  deriving DecidableEq, Repr

inductive Phase where
  | welcome
  | fixation
  | trial
  | break_
  | end_
  deriving DecidableEq, Repr

structure TrialData where
  participant : String
  block : Nat
  trial : Nat
  configuration_id : Int
  is_repeated : Bool
  response_time : Int       -- milliseconds (the source rounds seconds to 3 decimals)
  is_correct : Bool
  target_position : Nat × Nat
  deriving DecidableEq, Repr

instance : Inhabited TrialData := ⟨⟨"", 0, 0, 0, false, 0, false, (0, 0)⟩⟩

structure ExpState where
  participant_id : String
  repeated_configs : List Configuration
  trial_results : List TrialData
  current_block : Nat
  current_trial : Nat
  state : Phase
  current_config : Option Configuration
  trial_start_time : Int
  fixation_start_time : Int
  exited : Bool
  saved : Option (List TrialData)
  pending : List CCTEvent
  coinCtr : Nat
  genCtr : Nat
  deriving DecidableEq, Repr

structure Frame where
  now : Int
  events : List CCTEvent
  deriving DecidableEq, Repr

/-- `Configuration(-1, False)`: a fresh novel configuration; the pair of
oracles drives its `generate` call.  With the repository constants
(`NUM_ITEMS = 12 ≤ 36 = GRID_SIZE²`) generation always succeeds; `.getD []`
covers the impossible failure branch. -/
def novelConfig (gen : (Nat → Nat) × (Nat → Nat)) : Configuration :=
  ⟨-1, false, (generate GRID_SIZE NUM_ITEMS gen.1 gen.2).getD []⟩

/-- `Experiment.record_trial` (lines 328-340). -/
def record_trial (s : ExpState) (now : Int) (is_correct : Bool) : ExpState :=
  let cfg := s.current_config.getD default
  { s with trial_results := s.trial_results ++
      [{ participant := s.participant_id
         block := s.current_block + 1
         trial := s.current_trial + 1
         configuration_id := cfg.config_id
         is_repeated := cfg.is_repeated
         response_time := now - s.trial_start_time
         is_correct := is_correct
         target_position := cfg.target.position }] }

/-- `Experiment.next_trial` (lines 342-354). -/
def next_trial (s : ExpState) : ExpState :=
  let s := { s with current_trial := s.current_trial + 1 }
  if NUM_REPEATED_CONFIGS + NUM_NOVEL_CONFIGS ≤ s.current_trial then
    let s := { s with current_trial := 0, current_block := s.current_block + 1 }
    if s.current_block < NUM_BLOCKS then { s with state := .break_ }
    else { s with state := .end_ }
  else { s with state := .fixation }

variable (coinO : Nat → Bool) (genO : Nat → (Nat → Nat) × (Nat → Nat))

/-- `Experiment.prepare_trial` (lines 271-281).  `coinO` yields the value of
`random.random() < 0.5`; `genO` supplies the random sources of a fresh
`Configuration(-1, False)` when the novel branch is taken. -/
def prepare_trial (s : ExpState) (now : Int) : ExpState :=
  let c := coinO s.coinCtr
  let s := { s with coinCtr := s.coinCtr + 1 }
  if c || decide (NUM_REPEATED_CONFIGS ≤ s.current_trial) then
    { s with current_config := some (novelConfig (genO s.genCtr)),
             genCtr := s.genCtr + 1, trial_start_time := now }
  else
    let config := s.repeated_configs.getD (s.current_trial % NUM_REPEATED_CONFIGS) default
    { s with current_config := some config, trial_start_time := now }

/-- Event scan of `show_welcome` (lines 239-250): the boolean is the
`waiting` flag; Escape and window-close call `sys.exit()` at once. -/
def welcomeEvents : ExpState → Bool → List CCTEvent → ExpState × Bool
  | s, waiting, [] => (s, waiting)
  | s, waiting, e :: rest =>
    match e with
    | .quit => ({ s with exited := true }, waiting)
    | .key .space => welcomeEvents s false rest
    | .key .escape => ({ s with exited := true }, waiting)
    | _ => welcomeEvents s waiting rest

/-- One loop iteration in the `welcome` state. -/
def show_welcome (s : ExpState) : ExpState :=
  let p := welcomeEvents { s with pending := [] } true s.pending
  if p.1.exited then p.1
  else if p.2 then p.1
  else { p.1 with state := .fixation }

/-- `Experiment.show_fixation` (lines 254-269): no event processing; a timed
transition into the trial phase once 0.5 s have elapsed. -/
def show_fixation (s : ExpState) (now : Int) : ExpState :=
  let s := if s.fixation_start_time = 0 then { s with fixation_start_time := now } else s
  if FIXATION_DURATION ≤ now - s.fixation_start_time then
    prepare_trial coinO genO { s with fixation_start_time := 0, state := .trial } now
  else s

/-- Event scan of `Experiment.run_trial` (lines 305-326). -/
def trialEvents (s : ExpState) (now : Int) : List CCTEvent → ExpState
  | [] => s
  | e :: rest =>
    match e with
    | .quit => { s with exited := true }
    | .key .escape => trialEvents { s with state := .end_ } now rest
    | .key _ => trialEvents s now rest
    | .click button pos =>
      if button = 1 then
        match processClick (s.current_config.getD default) pos with
        | some c => trialEvents (next_trial (record_trial s now c)) now rest
        | none => trialEvents s now rest
      else trialEvents s now rest

/-- Event scan of `show_break` (lines 368-379): Escape sets the state to
`end` and releases the wait, but line 381 then overwrites the state. -/
def breakEvents : ExpState → Bool → List CCTEvent → ExpState × Bool
  | s, waiting, [] => (s, waiting)
  | s, waiting, e :: rest =>
    match e with
    | .quit => ({ s with exited := true }, waiting)
    | .key .space => breakEvents s false rest
    | .key .escape => breakEvents { s with state := .end_ } false rest
    | _ => breakEvents s waiting rest

/-- One loop iteration in the `break` state; on release the state is set to
`fixation` unconditionally (line 381). -/
def show_break (s : ExpState) : ExpState :=
  let p := breakEvents { s with pending := [] } true s.pending
  if p.1.exited then p.1
  else if p.2 then p.1
  else { p.1 with state := .fixation }

/-- Event scan of `show_end` (lines 397-405): window-close calls `sys.exit()`
directly, skipping `save_results`; Space or Escape releases the wait. -/
def endEvents : ExpState → Bool → List CCTEvent → ExpState × Bool
  | s, waiting, [] => (s, waiting)
  | s, waiting, e :: rest =>
    match e with
    | .quit => ({ s with exited := true }, waiting)
    | .key .space => endEvents s false rest
    | .key .escape => endEvents s false rest
    | _ => endEvents s waiting rest

/-- One loop iteration in the `end` state: once released, `save_results`
persists the trial log and the process exits. -/
def show_end (s : ExpState) : ExpState :=
  let p := endEvents { s with pending := [] } true s.pending
  if p.1.exited then p.1
  else if p.2 then p.1
  else { p.1 with saved := some p.1.trial_results, exited := true }

/-- One iteration of the `Experiment.run` loop. -/
def stepFrame (s : ExpState) (f : Frame) : ExpState :=
  if s.exited then s
  else
    let s := { s with pending := s.pending ++ f.events }
    match s.state with
    | .welcome => show_welcome s
    | .fixation => show_fixation coinO genO s f.now
    | .trial =>
      let evs := s.pending
      trialEvents { s with pending := [] } f.now evs
    | .break_ => show_break s
    | .end_ => show_end s

def runCCT (s : ExpState) : List Frame → ExpState
  | [] => s
  | f :: fs => runCCT (stepFrame coinO genO s f) fs

/-- `Experiment.setup_experiment` plus `__init__` (lines 150-170): the session
state before the main loop, with the repeated pool generated once.  `setupGen`
supplies the random sources of the `i`-th repeated `Configuration(i, True)`. -/
def initState (pid : String) (setupGen : Nat → (Nat → Nat) × (Nat → Nat)) : ExpState :=
  { participant_id := pid
    repeated_configs := (List.range NUM_REPEATED_CONFIGS).map fun i =>
      ⟨Int.ofNat i, true, (generate GRID_SIZE NUM_ITEMS (setupGen i).1 (setupGen i).2).getD []⟩
    trial_results := []
    current_block := 0
    current_trial := 0
    state := .welcome
    current_config := none
    trial_start_time := 0
    fixation_start_time := 0
    exited := false
    saved := none
    pending := []
    coinCtr := 0
    genCtr := 0 }

/-! ### Aggregation in `save_results` (src/tarefa3/tarefa3.py, lines 428-448)

`save_results` groups the correct records by `(block, is_repeated)` with
pandas and takes the group means; the per-block report line then reads
`repeated_data[...].values[0] if i in repeated_data['block'].values else 0`.
`tempoMedioGrupo` is the extensional content of that pipeline: the mean
response time of the qualifying records of one `(block, condition)` group,
with `0` substituted when the group is empty. -/

def tempoMedioGrupo (results : List TrialData) (blk : Nat) (rep : Bool) : ℚ :=
  let grupo := results.filter fun r => r.is_correct && (r.is_repeated == rep) && (r.block == blk)
  if grupo.length = 0 then 0
  else ((grupo.map fun r => (r.response_time : ℚ)).sum) / grupo.length

end CCT


namespace IGT

/-! ### Experiment constants (src/tarefa4/tarefa4.py, lines 13-69) -/

def NUM_TENTATIVAS : Nat := 100
def NUM_BLOCOS : Nat := 5
def DINHEIRO_INICIAL : Int := 2000

/-- Feedback-screen duration: 1.5 s in the source, in milliseconds here. -/
def DURACAO_FEEDBACK : Int := 1500

/-- A deck's payoff specification: constant reward, loss frequency, and the
possible loss magnitudes.  The Bernoulli loss frequency (a float in the
source) is kept abstract: the per-slot Bernoulli draws are oracle inputs, so
the frequency value itself never enters the semantics of the schedule. -/
structure Deck where
  recompensa : Int
  valores_perda : List Int
  deriving DecidableEq, Repr

def BARALHO_A : Deck := ⟨100, [150, 200, 250, 300, 350]⟩
def BARALHO_B : Deck := ⟨100, [1250]⟩
def BARALHO_C : Deck := ⟨50, [25, 50, 75]⟩
def BARALHO_D : Deck := ⟨50, [250]⟩

inductive Baralho where
  | A
  | B
  | C
  | D
  deriving DecidableEq, Repr

def deckOf : Baralho → Deck
  | .A => BARALHO_A
  | .B => BARALHO_B
  | .C => BARALHO_C
  | .D => BARALHO_D

/-! ### Outcome schedule (src/tarefa4/tarefa4.py, lines 156-174) -/

/-- One deck's column of `_gerar_resultados_baralhos`: for each trial slot,
reward is the deck's constant; `bern i` is the value of
`random.random() < freq_perda` for slot `i`; when it succeeds,
`random.choice(valores_perda)` is modelled by the oracle index `idx i`
reduced mod the list length (Python raises on an empty list; the four decks
all have nonempty loss lists). -/
def gerarResultadosDeck (prop : Deck) (bern : Nat → Bool) (idx : Nat → Nat)
    (n : Nat) : List (Int × Int × Int) :=
  (List.range n).map fun i =>
    let recompensa := prop.recompensa
    let perda := if bern i then prop.valores_perda.getD (idx i % prop.valores_perda.length) 0
                 else 0
    let liquido := recompensa - perda
    (recompensa, perda, liquido)

/-- Oracle bundle: the Bernoulli and choice draws of one deck's schedule. -/
structure DeckOracle where
  bern : Nat → Bool
  idx : Nat → Nat

structure ResultadosBaralhos where
  A : List (Int × Int × Int)
  B : List (Int × Int × Int)
  C : List (Int × Int × Int)
  D : List (Int × Int × Int)
  deriving DecidableEq, Repr

def ResultadosBaralhos.get : ResultadosBaralhos → Baralho → List (Int × Int × Int)
  | r, .A => r.A
  | r, .B => r.B
  | r, .C => r.C
  | r, .D => r.D

/-- `_gerar_resultados_baralhos`: the full precomputed schedule, one column
per deck, each of length `NUM_TENTATIVAS`. -/
def gerarResultadosBaralhos (oA oB oC oD : DeckOracle) : ResultadosBaralhos :=
  { A := gerarResultadosDeck BARALHO_A oA.bern oA.idx NUM_TENTATIVAS
    B := gerarResultadosDeck BARALHO_B oB.bern oB.idx NUM_TENTATIVAS
    C := gerarResultadosDeck BARALHO_C oC.bern oC.idx NUM_TENTATIVAS
    D := gerarResultadosDeck BARALHO_D oD.bern oD.idx NUM_TENTATIVAS }

/-! ### Trial records and results aggregation (lines 417-452, 546-586) -/

structure Registro where
  tentativa : Nat
  baralho : Baralho
  recompensa : Int
  perda : Int
  liquido : Int
  dinheiro_total : Int
  tempo_reacao : Int        -- milliseconds (the source rounds seconds to 3 decimals)
  deriving DecidableEq, Repr

instance : Inhabited Registro := ⟨⟨0, .A, 0, 0, 0, 0, 0⟩⟩

structure EscolhasBaralho where
  A : Nat
  B : Nat
  C : Nat
  D : Nat
  deriving DecidableEq, Repr

def EscolhasBaralho.incrementa (e : EscolhasBaralho) : Baralho → EscolhasBaralho
  | .A => { e with A := e.A + 1 }
  | .B => { e with B := e.B + 1 }
  | .C => { e with C := e.C + 1 }
  | .D => { e with D := e.D + 1 }

/-- The `+1` / `-1` contribution of one pick to its block score. -/
def scoreBaralho : Baralho → Int
  | .C => 1
  | .D => 1
  | .A => -1
  | .B => -1

structure Resultados where
  escolhas_baralho : EscolhasBaralho
  pontuacao_liquida : Int
  pontuacoes_bloco : List Int
  deriving DecidableEq, Repr

/-- Loop body of the per-block scoring of `_calcular_resultados`
(lines 442-450): `p` is one `enumerate(self.dados)` pair; trial `p.1` lands
in block `p.1 // (nT // nB)`, guarded by `p.1 < nT` and `bloco < nB`; C/D
add 1, A/B subtract 1 at the block's slot. -/
def passoBloco (nT nB : Nat) (acc : List Int) (p : Nat × Registro) : List Int :=
  if p.1 < nT then
    let bloco := p.1 / (nT / nB)
    if bloco < nB then acc.set bloco (acc.getD bloco 0 + scoreBaralho p.2.baralho)
    else acc
  else acc

/-- The per-block loop of `_calcular_resultados` (lines 440-450), with the
module constants `NUM_TENTATIVAS` and `NUM_BLOCOS` as parameters `nT`, `nB`:
`pontuacoes_bloco` starts as `[0] * nB` and the loop folds `passoBloco` over
`enumerate(self.dados)`. -/
def pontuacoesBloco (dados : List Registro) (nT nB : Nat) : List Int :=
  dados.enum.foldl (passoBloco nT nB) (List.replicate nB 0)

/-- `_calcular_resultados` (lines 417-452), parametrised by the two module
constants. -/
def calcularResultados (dados : List Registro) (nT nB : Nat) : Resultados :=
  let escolhas := dados.foldl (fun acc d => acc.incrementa d.baralho) ⟨0, 0, 0, 0⟩
  let vantajosos : Int := (escolhas.C : Int) + (escolhas.D : Int)
  let desvantajosos : Int := (escolhas.A : Int) + (escolhas.B : Int)
  { escolhas_baralho := escolhas
    pontuacao_liquida := vantajosos - desvantajosos
    pontuacoes_bloco := pontuacoesBloco dados nT nB }

/-- Block score as the spec and claim word it: trial `i` is assigned to block
`floor(i / (totalTrials / blockCount))`, trials at index `≥ totalTrials` or
whose block index reaches `blockCount` count for no block; an advantageous
pick contributes `+1`, a disadvantageous one `-1`.  This definition follows
the claim's wording and is proved equal to the code's `pontuacoesBloco`. -/
def pontuacaoBlocoSpec (dados : List Registro) (nT nB b : Nat) : Int :=
  ((List.range dados.length).map fun i =>
    if i < nT ∧ i / (nT / nB) = b then scoreBaralho (dados.getD i default).baralho
    else 0).sum

/-! ### The IGT session state machine (src/tarefa4/tarefa4.py, lines 73-611)

One `FrameIGT` is one iteration of the `executar` loop.  As on the CCT side,
`pending` models pygame's event queue; the feedback screen never calls
`pygame.event.get()`, so events arriving there stay queued.  `salvo` models
`_salvar_dados` having written the log; `entradaPrincipal` is a ghost field
recording the wall-clock of the last transition into the `principal` state —
it is written, never read, and exists only to state reaction-time claims. -/

inductive EstadoIGT where
  | instrucoes
  | principal
  | feedback
  | resultados
  deriving DecidableEq, Repr

inductive IGTEvent where
  | quit
  | keyEsc
  | keySpace
  | keyReturn
  | keyOther
  | clickDeck (b : Baralho)
  | clickContinuar
  | clickFora
  deriving DecidableEq, Repr

structure IGTState where
  participante_id : String
  dinheiro : Int
  tentativa_atual : Nat
  dados : List Registro
  tempo_inicio : Int
  tempo_reacao : Int
  resultados_baralhos : ResultadosBaralhos
  estado : EstadoIGT
  feedback_dados : Option (Baralho × Int × Int × Int)
  tempo_inicio_feedback : Int
  executando : Bool
  salvo : Option (List Registro)
  pending : List IGTEvent
  entradaPrincipal : Int
  deriving DecidableEq, Repr

structure FrameIGT where
  now : Int
  eventos : List IGTEvent
  deriving DecidableEq, Repr

/-- `_processar_escolha` (lines 546-586): reaction time against
`tempo_inicio`, which is immediately reset to the choice's own timestamp;
the outcome is read from the precomputed schedule at
`(baralho, tentativa_atual)`; one record is appended; the state moves to
feedback — or straight to the results state when the incremented counter
reaches `NUM_TENTATIVAS`. -/
def processarEscolha (s : IGTState) (baralho : Baralho) (now : Int) : IGTState :=
  let tempo_reacao := now - s.tempo_inicio
  let s := { s with tempo_reacao := tempo_reacao, tempo_inicio := now }
  let res := (s.resultados_baralhos.get baralho).getD s.tentativa_atual (0, 0, 0)
  let recompensa := res.1
  let perda := res.2.1
  let liquido := res.2.2
  let s := { s with dinheiro := s.dinheiro + liquido }
  let reg : Registro :=
    { tentativa := s.tentativa_atual + 1
      baralho := baralho
      recompensa := recompensa
      perda := perda
      liquido := liquido
      dinheiro_total := s.dinheiro
      tempo_reacao := tempo_reacao }
  let s := { s with dados := s.dados ++ [reg],
                    feedback_dados := some (baralho, recompensa, perda, liquido),
                    tempo_inicio_feedback := now,
                    estado := .feedback,
                    tentativa_atual := s.tentativa_atual + 1 }
  if NUM_TENTATIVAS ≤ s.tentativa_atual then { s with estado := .resultados } else s

/-- `_processar_eventos_instrucoes` (lines 505-517). -/
def eventosInstrucoes (now : Int) : IGTState → List IGTEvent → IGTState
  | s, [] => s
  | s, e :: rest =>
    match e with
    | .quit => eventosInstrucoes now { s with executando := false } rest
    | .keyEsc => eventosInstrucoes now { s with executando := false } rest
    | .keySpace =>
      eventosInstrucoes now { s with estado := .principal, entradaPrincipal := now } rest
    | .keyReturn =>
      eventosInstrucoes now { s with estado := .principal, entradaPrincipal := now } rest
    | .clickContinuar =>
      eventosInstrucoes now { s with estado := .principal, entradaPrincipal := now } rest
    | _ => eventosInstrucoes now s rest

/-- `_processar_eventos_principal` (lines 519-532): a click lands either on
one deck's rectangle (`clickDeck`) or on none (`clickFora`). -/
def eventosPrincipal (now : Int) : IGTState → List IGTEvent → IGTState
  | s, [] => s
  | s, e :: rest =>
    match e with
    | .quit => eventosPrincipal now { s with executando := false } rest
    | .keyEsc => eventosPrincipal now { s with executando := false } rest
    | .clickDeck b => eventosPrincipal now (processarEscolha s b now) rest
    | _ => eventosPrincipal now s rest

/-- `_processar_eventos_resultados` (lines 534-544). -/
def eventosResultados : IGTState → List IGTEvent → IGTState
  | s, [] => s
  | s, e :: rest =>
    match e with
    | .quit => eventosResultados { s with executando := false } rest
    | .keyEsc => eventosResultados { s with executando := false } rest
    | .keySpace => eventosResultados { s with executando := false } rest
    | .clickContinuar => eventosResultados { s with executando := false } rest
    | _ => eventosResultados s rest

/-- `_desenhar_tela_principal` (lines 247-292): its only state effect is
starting the reaction clock at the first draw of the first trial. -/
def desenharTelaPrincipal (s : IGTState) (now : Int) : IGTState :=
  if s.tentativa_atual = 0 ∧ s.tempo_inicio = 0 then { s with tempo_inicio := now } else s

/-- `_desenhar_feedback` (lines 294-350): after `DURACAO_FEEDBACK` the state
returns to `principal` automatically; no events are processed. -/
def desenharFeedback (s : IGTState) (now : Int) : IGTState :=
  match s.feedback_dados with
  | none => s
  | some _ =>
    if DURACAO_FEEDBACK ≤ now - s.tempo_inicio_feedback then
      { s with estado := .principal, feedback_dados := none, entradaPrincipal := now }
    else s

/-- One iteration of the `executar` loop (lines 588-604). -/
def passoExecutar (s : IGTState) (f : FrameIGT) : IGTState :=
  let s := { s with pending := s.pending ++ f.eventos }
  match s.estado with
  | .instrucoes =>
    let evs := s.pending
    eventosInstrucoes f.now { s with pending := [] } evs
  | .principal =>
    let s := desenharTelaPrincipal s f.now
    let evs := s.pending
    eventosPrincipal f.now { s with pending := [] } evs
  | .feedback => desenharFeedback s f.now
  | .resultados =>
    let evs := s.pending
    eventosResultados { s with pending := [] } evs

/-- The `while self.executando` loop over a finite input trace. -/
def executarLoop (s : IGTState) : List FrameIGT → IGTState
  | [] => s
  | f :: fs => if s.executando then executarLoop (passoExecutar s f) fs else s

/-- The code after the loop (lines 606-611): the data are saved iff at least
one record exists. -/
def encerrar (s : IGTState) : IGTState :=
  if 0 < s.dados.length then { s with salvo := some s.dados } else s

/-- `executar`: loop, then — if the loop has exited — best-effort save. -/
def executar (s : IGTState) (frames : List FrameIGT) : IGTState :=
  let s := executarLoop s frames
  if s.executando then s else encerrar s

/-- `IowaGamblingTask.__init__` (lines 74-138), with `embaralhar_baralhos`
false (the deck positions play no role in the embedded logic). -/
def initIGT (pid : String) (oA oB oC oD : DeckOracle) : IGTState :=
  { participante_id := pid
    dinheiro := DINHEIRO_INICIAL
    tentativa_atual := 0
    dados := []
    tempo_inicio := 0
    tempo_reacao := 0
    resultados_baralhos := gerarResultadosBaralhos oA oB oC oD
    estado := .instrucoes
    feedback_dados := none
    tempo_inicio_feedback := 0
    executando := true
    salvo := none
    pending := []
    entradaPrincipal := 0 }

end IGT

/-! ### Test fixtures: concrete sessions used by witnesses and counterexamples -/

/-- A minimal trial record used by concrete witnesses: pick `b` at trial `n`
(the aggregation only reads the `baralho` field). -/
def registroTeste (n : Nat) (b : IGT.Baralho) : IGT.Registro :=
  ⟨n, b, 0, 0, 0, 0, 0⟩

/-! ### Concrete sessions used by counterexamples and witnesses -/

/-- Constant-zero random sources for configuration generation. -/
def zeroGen : Nat → (Nat → Nat) × (Nat → Nat) := fun _ => (fun _ => 0, fun _ => 0)

/-- A coin that always selects "novel". -/
def coinTrue : Nat → Bool := fun _ => true

def sessaoCCT : CCT.ExpState := CCT.initState "p" zeroGen

/-- A CCT input trace: Space through the welcome screen, three fixation/trial
cycles each ended by a click on the target's screen centre (200, 100), then a
window-close event during the fourth trial. -/
def framesAborto : List CCT.Frame :=
  [⟨1000, [.key .space]⟩, ⟨2000, []⟩, ⟨3000, []⟩, ⟨4000, [.click 1 (200, 100)]⟩,
   ⟨5000, []⟩, ⟨6000, []⟩, ⟨7000, [.click 1 (200, 100)]⟩,
   ⟨8000, []⟩, ⟨9000, []⟩, ⟨10000, [.click 1 (200, 100)]⟩,
   ⟨11000, []⟩, ⟨12000, []⟩, ⟨13000, [.quit]⟩]

/-- A loss-free deck oracle. -/
def oracleSemPerda : IGT.DeckOracle := ⟨fun _ => false, fun _ => 0⟩

def sessaoIGT : IGT.IGTState :=
  IGT.initIGT "p" oracleSemPerda oracleSemPerda oracleSemPerda oracleSemPerda

/-- An IGT input trace: continue past the instructions, complete three deck
choices (with the feedback delays), then press Escape. -/
def framesAbortoIGT : List IGT.FrameIGT :=
  [⟨0, [.keySpace]⟩, ⟨1000, []⟩, ⟨2000, [.clickDeck .C]⟩, ⟨4000, []⟩,
   ⟨5000, [.clickDeck .C]⟩, ⟨7000, []⟩, ⟨8000, [.clickDeck .D]⟩,
   ⟨10000, [.keyEsc]⟩, ⟨11000, []⟩]

/-- An IGT input trace exercising the feedback replay: two choices of deck A
with the feedback interval between them. -/
def framesReplay : List IGT.FrameIGT :=
  [⟨0, [.keySpace]⟩, ⟨1000, []⟩, ⟨3000, [.clickDeck .A]⟩, ⟨5000, []⟩,
   ⟨6000, [.clickDeck .A]⟩]

/-! ## Supporting lemmas -/

namespace CCT

/-! ### Lemmas about the sampling core -/

theorem not_mem_eraseIdx_self {α : Type} :
    ∀ (l : List α) (j : Nat) (h : j < l.length), l.Nodup → l[j] ∉ l.eraseIdx j := by
  intro l
  induction l with
  | nil => intro j h; simp at h
  | cons a t ih =>
    intro j h hnd
    match j with
    | 0 =>
      simp only [List.eraseIdx_cons_zero, List.getElem_cons_zero]
      exact (List.nodup_cons.mp hnd).1
    | j + 1 =>
      simp only [List.eraseIdx_cons_succ, List.getElem_cons_succ, List.mem_cons]
      have hj : j < t.length := by simpa using h
      rintro (heq | hmem)
      · exact (List.nodup_cons.mp hnd).1 (heq ▸ List.getElem_mem hj)
      · exact ih j hj (List.nodup_cons.mp hnd).2 hmem

theorem sampleAux_length (rand : Nat → Nat) :
    ∀ (k step : Nat) (pop : List (Nat × Nat)), k ≤ pop.length →
      (sampleAux rand step k pop).length = k := by
  intro k
  induction k with
  | zero => intro step pop _; simp [sampleAux]
  | succ k ih =>
    intro step pop hk
    match pop with
    | [] => simp at hk
    | p :: pop =>
      have hj : rand step % (p :: pop).length < (p :: pop).length :=
        Nat.mod_lt _ (by simp)
      have hlen : ((p :: pop).eraseIdx (rand step % (p :: pop).length)).length
          = pop.length := by
        rw [List.length_eraseIdx_of_lt hj]; simp
      have hrec := ih (step + 1) ((p :: pop).eraseIdx (rand step % (p :: pop).length))
        (by rw [hlen]; simpa using hk)
      simp only [sampleAux]
      rw [List.length_cons, hrec]

theorem sampleAux_subset (rand : Nat → Nat) :
    ∀ (k step : Nat) (pop : List (Nat × Nat)),
      ∀ x ∈ sampleAux rand step k pop, x ∈ pop := by
  intro k
  induction k with
  | zero => intro step pop x hx; simp [sampleAux] at hx
  | succ k ih =>
    intro step pop x hx
    match pop with
    | [] => simp [sampleAux] at hx
    | p :: pop =>
      simp only [sampleAux, List.mem_cons] at hx
      have hj : rand step % (p :: pop).length < (p :: pop).length :=
        Nat.mod_lt _ (by simp)
      rcases hx with hx | hx
      · rw [hx, List.getD_eq_getElem _ _ hj]
        exact List.getElem_mem hj
      · exact (List.eraseIdx_sublist (p :: pop) _).subset (ih _ _ x hx)

theorem sampleAux_nodup (rand : Nat → Nat) :
    ∀ (k step : Nat) (pop : List (Nat × Nat)), pop.Nodup →
      (sampleAux rand step k pop).Nodup := by
  intro k
  induction k with
  | zero => intro step pop _; simp [sampleAux]
  | succ k ih =>
    intro step pop hnd
    match pop with
    | [] => simp [sampleAux]
    | p :: pop =>
      simp only [sampleAux, List.nodup_cons]
      have hj : rand step % (p :: pop).length < (p :: pop).length :=
        Nat.mod_lt _ (by simp)
      refine ⟨fun hmem => ?_, ih _ _ (hnd.sublist (List.eraseIdx_sublist _ _))⟩
      have := sampleAux_subset rand k (step + 1) _ _ hmem
      rw [List.getD_eq_getElem _ _ hj] at this
      exact not_mem_eraseIdx_self _ _ hj hnd this

theorem grid_positions_length (gridSize : Nat) :
    (grid_positions gridSize).length = gridSize * gridSize := by
  simp only [grid_positions, List.length_flatMap, Function.comp_def, List.length_map,
    List.length_range, List.map_const', List.sum_replicate, smul_eq_mul]

theorem grid_positions_nodup (gridSize : Nat) : (grid_positions gridSize).Nodup := by
  unfold grid_positions
  rw [List.nodup_flatMap]
  constructor
  · intro x _
    exact (List.nodup_range _).map (fun a b h => by simpa using h)
  · refine (List.nodup_range gridSize).pairwise_of_forall_ne ?_
    intro x1 _ x2 _ hxy
    simp only [Function.onFun, List.disjoint_left]
    intro q hq1 hq2
    simp only [List.mem_map, List.mem_range] at hq1 hq2
    obtain ⟨y1, -, h1⟩ := hq1
    obtain ⟨y2, -, h2⟩ := hq2
    exact hxy (congrArg Prod.fst (h1.trans h2.symm))

theorem rotChoice_mem (n : Nat) : rotChoice n ∈ [0, 90, 180, 270] := by
  unfold rotChoice
  rcases (by omega : n % 4 = 0 ∨ n % 4 = 1 ∨ n % 4 = 2 ∨ n % 4 = 3) with h | h | h | h <;>
    simp [h]

/-! ### Lemmas about `generate` -/

theorem generate_isNone {gridSize itemCount : Nat} (posRand rotRand : Nat → Nat)
    (h : gridSize * gridSize < itemCount) :
    generate gridSize itemCount posRand rotRand = none := by
  unfold generate randomSample
  rw [grid_positions_length]
  simp [Nat.not_le.mpr h]

theorem generate_eq_some {gridSize itemCount : Nat} {posRand rotRand : Nat → Nat}
    {stims : List Stimulus}
    (h : generate gridSize itemCount posRand rotRand = some stims) :
    itemCount ≤ gridSize * gridSize ∧
    stims.map Stimulus.position = sampleAux posRand 0 itemCount (grid_positions gridSize) ∧
    stims ≠ [] ∧
    (stims.getD 0 default).stim_type = 'T' ∧
    (∀ s ∈ stims.tail, s.stim_type = 'L') ∧
    (∀ s ∈ stims, s.rotation ∈ [0, 90, 180, 270]) := by
  unfold generate randomSample at h
  by_cases hle : itemCount ≤ (grid_positions gridSize).length
  · rw [if_pos hle] at h
    match hsel : sampleAux posRand 0 itemCount (grid_positions gridSize) with
    | [] => rw [hsel] at h; exact absurd h (by simp)
    | target_pos :: rest =>
      rw [hsel] at h
      simp only [Option.some.injEq] at h
      subst h
      refine ⟨by rwa [grid_positions_length] at hle, ?_, by simp, by simp, ?_, ?_⟩
      · simp only [List.map_cons, List.map_map, hsel, List.cons.injEq, true_and]
        have : (Stimulus.position ∘ fun p : Nat × (Nat × Nat) =>
            (⟨'L', p.2, rotChoice (rotRand (p.1 + 1))⟩ : Stimulus)) = Prod.snd := by
          funext p; rfl
        rw [this, List.enum_map_snd]
      · intro s hs
        simp only [List.tail_cons, List.mem_map] at hs
        obtain ⟨p, -, hp⟩ := hs
        rw [← hp]
      · intro s hs
        simp only [List.mem_cons, List.mem_map] at hs
        rcases hs with hs | ⟨p, -, hp⟩
        · rw [hs]; exact rotChoice_mem _
        · rw [← hp]; exact rotChoice_mem _
  · rw [if_neg hle] at h
    exact absurd h (by simp)

/-! ### Geometry of the circular hit regions -/

theorem contains_point_bounds {s : Stimulus} {p : Int × Int}
    (h : s.contains_point p = true) :
    (p.1 - s.screen_pos.1) ^ 2 ≤ 225 ∧ (p.2 - s.screen_pos.2) ^ 2 ≤ 225 := by
  have hsum : (p.1 - s.screen_pos.1) ^ 2 + (p.2 - s.screen_pos.2) ^ 2 ≤ 225 := by
    simpa [Stimulus.contains_point, STIM_SIZE] using h
  constructor <;> nlinarith [sq_nonneg (p.1 - s.screen_pos.1), sq_nonneg (p.2 - s.screen_pos.2)]

theorem abs_le_fifteen_of_sq {d : Int} (h : d ^ 2 ≤ 225) : -15 ≤ d ∧ d ≤ 15 := by
  constructor <;> nlinarith [sq_nonneg (d + 15), sq_nonneg (d - 15)]

/-- Stimuli on distinct grid cells have disjoint circular hit regions: cell
centres of distinct cells are at least `CELL_SIZE = 80` pixels apart in some
axis, while each hit region spans at most 15 pixels from its centre. -/
theorem hit_regions_disjoint {s t : Stimulus} (hne : s.position ≠ t.position)
    (p : Int × Int) : ¬(s.contains_point p = true ∧ t.contains_point p = true) := by
  rintro ⟨hs, ht⟩
  obtain ⟨hs1, hs2⟩ := contains_point_bounds hs
  obtain ⟨ht1, ht2⟩ := contains_point_bounds ht
  obtain ⟨hs1a, hs1b⟩ := abs_le_fifteen_of_sq hs1
  obtain ⟨hs2a, hs2b⟩ := abs_le_fifteen_of_sq hs2
  obtain ⟨ht1a, ht1b⟩ := abs_le_fifteen_of_sq ht1
  obtain ⟨ht2a, ht2b⟩ := abs_le_fifteen_of_sq ht2
  have hcase : s.position.1 ≠ t.position.1 ∨ s.position.2 ≠ t.position.2 := by
    by_contra hc
    push_neg at hc
    exact hne (Prod.ext hc.1 hc.2)
  simp only [Stimulus.screen_pos, GRID_START_X, GRID_START_Y, CELL_SIZE, WIDTH, HEIGHT,
    GRID_SIZE] at hs1a hs1b hs2a hs2b ht1a ht1b ht2a ht2b
  rcases hcase with hc | hc <;> omega

end CCT

namespace IGT

/-! ### Lemmas: deck-choice counting -/

theorem contagem_foldl (dados : List Registro) :
    ∀ acc : EscolhasBaralho,
      (dados.foldl (fun a d => a.incrementa d.baralho) acc).A
          = acc.A + (dados.filter fun d => d.baralho = .A).length ∧
      (dados.foldl (fun a d => a.incrementa d.baralho) acc).B
          = acc.B + (dados.filter fun d => d.baralho = .B).length ∧
      (dados.foldl (fun a d => a.incrementa d.baralho) acc).C
          = acc.C + (dados.filter fun d => d.baralho = .C).length ∧
      (dados.foldl (fun a d => a.incrementa d.baralho) acc).D
          = acc.D + (dados.filter fun d => d.baralho = .D).length := by
  induction dados with
  | nil => intro acc; simp
  | cons d t ih =>
    intro acc
    obtain ⟨ha, hb, hc, hd⟩ := ih (acc.incrementa d.baralho)
    cases hbar : d.baralho <;>
      simp_all [EscolhasBaralho.incrementa, List.filter_cons, hbar] <;> omega

/-! ### Lemmas: the per-block scoring loop -/

theorem passoBloco_foldl (nT nB : Nat) (ps : List (Nat × Registro)) :
    ∀ (acc : List Int), acc.length = nB → ∀ b, b < nB →
      (ps.foldl (passoBloco nT nB) acc).getD b 0 = acc.getD b 0 +
        ((ps.map fun p =>
            if p.1 < nT ∧ p.1 / (nT / nB) = b then scoreBaralho p.2.baralho else 0).sum) := by
  induction ps with
  | nil => intro acc _ b _; simp
  | cons p t ih =>
    intro acc hlen b hb
    have hstep : (passoBloco nT nB acc p).length = nB := by
      simp only [passoBloco]
      split_ifs <;> simp [List.length_set, hlen]
    have hrec := ih (passoBloco nT nB acc p) hstep b hb
    rw [List.foldl_cons, hrec]
    have hone : (passoBloco nT nB acc p).getD b 0 = acc.getD b 0 +
        (if p.1 < nT ∧ p.1 / (nT / nB) = b then scoreBaralho p.2.baralho else 0) := by
      simp only [passoBloco]
      by_cases h1 : p.1 < nT
      · simp only [if_pos h1]
        by_cases h2 : p.1 / (nT / nB) < nB
        · simp only [if_pos h2]
          rw [List.getD_eq_getElem?_getD, List.getElem?_set, List.getD_eq_getElem?_getD]
          by_cases h3 : p.1 / (nT / nB) = b
          · rw [if_pos h3, if_pos (by rw [hlen]; exact h3 ▸ h2)]
            simp [h1, h3, List.getD_eq_getElem?_getD]
          · rw [if_neg h3]
            simp [h1, h3]
        · have h3 : p.1 / (nT / nB) ≠ b := fun hc => h2 (hc ▸ hb)
          simp [h2, h1, h3]
      · simp [h1]
    rw [hone]
    simp only [List.map_cons, List.sum_cons]
    omega

theorem passoBloco_foldl_length (nT nB : Nat) (ps : List (Nat × Registro)) :
    ∀ acc : List Int, (ps.foldl (passoBloco nT nB) acc).length = acc.length := by
  induction ps with
  | nil => intro acc; rfl
  | cons p t ih =>
    intro acc
    rw [List.foldl_cons, ih]
    simp only [passoBloco]
    split_ifs <;> simp [List.length_set]

theorem enum_map_range (dados : List Registro) (f : Nat → Registro → Int) :
    dados.enum.map (fun p => f p.1 p.2)
      = (List.range dados.length).map fun i => f i (dados.getD i default) := by
  apply List.ext_getElem
  · simp
  · intro i h1 h2
    have hi : i < dados.length := by simpa using h2
    simp [List.getElem_enum, List.getD_eq_getElem?_getD, List.getElem?_eq_getElem hi]

theorem pontuacoesBloco_getD (dados : List Registro) (nT nB b : Nat) (hb : b < nB) :
    (pontuacoesBloco dados nT nB).getD b 0 = pontuacaoBlocoSpec dados nT nB b := by
  unfold pontuacoesBloco pontuacaoBlocoSpec
  rw [passoBloco_foldl nT nB dados.enum (List.replicate nB 0) (by simp) b hb]
  rw [show (List.replicate nB (0:Int)).getD b 0 = 0 by
    simp [List.getD_eq_getElem?_getD, List.getElem?_replicate, hb]]
  rw [zero_add]
  rw [enum_map_range dados
    (fun i d => if i < nT ∧ i / (nT / nB) = b then scoreBaralho d.baralho else 0)]

/-! ### Lemmas: the machine never touches the precomputed schedule -/

theorem eventosInstrucoes_inv (now : Int) :
    ∀ (evs : List IGTEvent) (s : IGTState),
      (eventosInstrucoes now s evs).resultados_baralhos = s.resultados_baralhos ∧
      (eventosInstrucoes now s evs).salvo = s.salvo := by
  intro evs
  induction evs with
  | nil => intro s; exact ⟨rfl, rfl⟩
  | cons e rest ih =>
    intro s
    cases e <;> simpa [eventosInstrucoes] using ih _

theorem processarEscolha_inv (s : IGTState) (b : Baralho) (now : Int) :
    (processarEscolha s b now).resultados_baralhos = s.resultados_baralhos ∧
    (processarEscolha s b now).salvo = s.salvo := by
  simp only [processarEscolha]
  split_ifs <;> exact ⟨rfl, rfl⟩

theorem eventosPrincipal_inv (now : Int) :
    ∀ (evs : List IGTEvent) (s : IGTState),
      (eventosPrincipal now s evs).resultados_baralhos = s.resultados_baralhos ∧
      (eventosPrincipal now s evs).salvo = s.salvo := by
  intro evs
  induction evs with
  | nil => intro s; exact ⟨rfl, rfl⟩
  | cons e rest ih =>
    intro s
    cases e with
    | clickDeck b =>
      have h1 := processarEscolha_inv s b now
      have h2 := ih (processarEscolha s b now)
      simp only [eventosPrincipal]
      exact ⟨h2.1.trans h1.1, h2.2.trans h1.2⟩
    | _ => simpa [eventosPrincipal] using ih _

theorem eventosResultados_inv :
    ∀ (evs : List IGTEvent) (s : IGTState),
      (eventosResultados s evs).resultados_baralhos = s.resultados_baralhos ∧
      (eventosResultados s evs).salvo = s.salvo := by
  intro evs
  induction evs with
  | nil => intro s; exact ⟨rfl, rfl⟩
  | cons e rest ih =>
    intro s
    cases e <;> simpa [eventosResultados] using ih _

theorem desenharTelaPrincipal_inv (s : IGTState) (now : Int) :
    (desenharTelaPrincipal s now).resultados_baralhos = s.resultados_baralhos ∧
    (desenharTelaPrincipal s now).salvo = s.salvo := by
  simp only [desenharTelaPrincipal]
  split_ifs <;> exact ⟨rfl, rfl⟩

theorem desenharFeedback_inv (s : IGTState) (now : Int) :
    (desenharFeedback s now).resultados_baralhos = s.resultados_baralhos ∧
    (desenharFeedback s now).salvo = s.salvo := by
  simp only [desenharFeedback]
  rcases s.feedback_dados with - | fd
  · exact ⟨rfl, rfl⟩
  · simp only
    split_ifs <;> exact ⟨rfl, rfl⟩

theorem passoExecutar_inv (s : IGTState) (f : FrameIGT) :
    (passoExecutar s f).resultados_baralhos = s.resultados_baralhos ∧
    (passoExecutar s f).salvo = s.salvo := by
  cases hst : s.estado <;> simp only [passoExecutar, hst]
  · exact ⟨(eventosInstrucoes_inv _ _ _).1, (eventosInstrucoes_inv _ _ _).2⟩
  · exact ⟨(eventosPrincipal_inv _ _ _).1.trans (desenharTelaPrincipal_inv _ _).1,
           (eventosPrincipal_inv _ _ _).2.trans (desenharTelaPrincipal_inv _ _).2⟩
  · exact ⟨(desenharFeedback_inv _ _).1, (desenharFeedback_inv _ _).2⟩
  · exact ⟨(eventosResultados_inv _ _).1, (eventosResultados_inv _ _).2⟩

theorem executarLoop_inv (s : IGTState) (frames : List FrameIGT) :
    (executarLoop s frames).resultados_baralhos = s.resultados_baralhos ∧
    (executarLoop s frames).salvo = s.salvo := by
  induction frames generalizing s with
  | nil => exact ⟨rfl, rfl⟩
  | cons f fs ih =>
    simp only [executarLoop]
    split_ifs
    · obtain ⟨h1, h2⟩ := passoExecutar_inv s f
      obtain ⟨h3, h4⟩ := ih (passoExecutar s f)
      exact ⟨h3.trans h1, h4.trans h2⟩
    · exact ⟨rfl, rfl⟩

end IGT

/-! ## The claims -/

/-- C1: For every configuration generated by the CCT generator with
`itemCount ≤ gridSize²`, the set of occupied grid cells has size exactly
`itemCount` with no duplicate cells, exactly one stimulus has target type
(the first sampled cell), every rotation is drawn from {0, 90, 180, 270},
and generation fails (raises) when `itemCount > gridSize²`. -/
theorem C1_cct_generation (gridSize itemCount : Nat) (posRand rotRand : Nat → Nat) :
    (∀ stims, CCT.generate gridSize itemCount posRand rotRand = some stims →
      (stims.map CCT.Stimulus.position).length = itemCount ∧
      (stims.map CCT.Stimulus.position).Nodup ∧
      (stims.filter fun s => s.stim_type = 'T').length = 1 ∧
      (stims.getD 0 default).stim_type = 'T' ∧
      (∀ s ∈ stims, s.rotation ∈ [0, 90, 180, 270])) ∧
    (gridSize * gridSize < itemCount →
      CCT.generate gridSize itemCount posRand rotRand = none) := by
  constructor
  · intro stims h
    obtain ⟨hle, hmap, hne, hhead, htail, hrot⟩ := CCT.generate_eq_some h
    have hlen' : itemCount ≤ (CCT.grid_positions gridSize).length := by
      rw [CCT.grid_positions_length]; exact hle
    refine ⟨?_, ?_, ?_, hhead, hrot⟩
    · rw [hmap]; exact CCT.sampleAux_length posRand itemCount 0 _ hlen'
    · rw [hmap]; exact CCT.sampleAux_nodup posRand itemCount 0 _ (CCT.grid_positions_nodup _)
    · match stims, hne with
      | st :: rest, _ =>
        have hT : st.stim_type = 'T' := by simpa using hhead
        have hrestL : rest.filter (fun s => decide (s.stim_type = 'T')) = [] := by
          rw [List.filter_eq_nil_iff]
          intro a ha
          have := htail a (by simpa using ha)
          simp [this]
        simp [List.filter_cons, hT, hrestL]
  · exact CCT.generate_isNone posRand rotRand

/-- Witness for C1 at concrete inputs: with the repository constants
(grid 6×6, 12 items) and the constant-zero oracles, generation succeeds and
the invariants hold; requesting 5 items from a 2×2 grid fails. -/
theorem C1_cct_generation_witness :
    (((CCT.generate 6 12 (fun _ => 0) (fun _ => 0)).getD []).map
        CCT.Stimulus.position).length = 12 ∧
    CCT.generate 2 5 (fun _ => 0) (fun _ => 0) = none := by
  constructor
  · exact ((C1_cct_generation 6 12 (fun _ => 0) (fun _ => 0)).1
      ((CCT.generate 6 12 (fun _ => 0) (fun _ => 0)).getD []) (by decide)).1
  · exact (C1_cct_generation 2 5 (fun _ => 0) (fun _ => 0)).2 (by decide)

/-- C10 (implicit): in every generated CCT configuration, the circular hit
regions of distinct stimuli are pairwise disjoint (cell centres of distinct
grid cells are at least `CELL_SIZE = 80` pixels apart while each hit radius
is `STIM_SIZE // 2 = 15` pixels), so any click point is contained in the hit
region of at most one stimulus and the correct/incorrect classification of
an advancing click is unambiguous. -/
theorem C10_hit_regions_disjoint (gridSize itemCount : Nat) (posRand rotRand : Nat → Nat) :
    ((CCT.generate gridSize itemCount posRand rotRand).getD []).Pairwise
      fun s t => ∀ p : Int × Int,
        ¬(s.contains_point p = true ∧ t.contains_point p = true) := by
  match hgen : CCT.generate gridSize itemCount posRand rotRand with
  | none => simp
  | some stims =>
    simp only [Option.getD_some]
    obtain ⟨-, hmap, -, -, -, -⟩ := CCT.generate_eq_some hgen
    have hnodup : (stims.map CCT.Stimulus.position).Nodup := by
      rw [hmap]
      exact CCT.sampleAux_nodup posRand itemCount 0 _ (CCT.grid_positions_nodup _)
    have hpw : stims.Pairwise fun a b => a.position ≠ b.position :=
      List.pairwise_map.mp hnodup
    exact hpw.imp fun hne p hc => CCT.hit_regions_disjoint hne p hc

/-- C9: if a `(block, condition)` group of the finished CCT trial log has no
qualifying (correct) records, the per-block report line carries the sentinel
value zero for that group's mean instead of the aggregation raising a
division-by-zero fault. -/
theorem C9_empty_group_sentinel (results : List CCT.TrialData) (blk : Nat) (rep : Bool)
    (h : results.filter
      (fun r => r.is_correct && (r.is_repeated == rep) && (r.block == blk)) = []) :
    CCT.tempoMedioGrupo results blk rep = 0 := by
  unfold CCT.tempoMedioGrupo
  simp [h]

/-- Witness for C9: a log whose only correct record is a novel one still
reports zero for the (block 1, repeated) group. -/
theorem C9_empty_group_sentinel_witness :
    CCT.tempoMedioGrupo
      [{ participant := "p", block := 1, trial := 1, configuration_id := -1,
         is_repeated := false, response_time := 700, is_correct := true,
         target_position := (0, 0) }] 1 true = 0 :=
  C9_empty_group_sentinel _ 1 true (by decide)

/-- C8: for every CCT trial, the trial-type selection executed before
generation selects "novel" when the fair coin succeeds OR unconditionally
when the within-block trial index reaches or exceeds the repeated-pool
size, and otherwise selects "repeated" and picks the repeated configuration
at index `trialIndexWithinBlock mod repeatedPoolSize`, returning the stored
configuration without regeneration or mutation of the pool. -/
theorem C8_trial_type_selection (coinO : Nat → Bool)
    (genO : Nat → (Nat → Nat) × (Nat → Nat)) (s : CCT.ExpState) (now : Int) :
    (coinO s.coinCtr = true ∨ CCT.NUM_REPEATED_CONFIGS ≤ s.current_trial →
      (CCT.prepare_trial coinO genO s now).current_config
          = some (CCT.novelConfig (genO s.genCtr)) ∧
      (CCT.novelConfig (genO s.genCtr)).is_repeated = false ∧
      (CCT.novelConfig (genO s.genCtr)).config_id = -1) ∧
    (coinO s.coinCtr = false ∧ s.current_trial < CCT.NUM_REPEATED_CONFIGS →
      (CCT.prepare_trial coinO genO s now).current_config
          = some (s.repeated_configs.getD
              (s.current_trial % CCT.NUM_REPEATED_CONFIGS) default) ∧
      (CCT.prepare_trial coinO genO s now).repeated_configs = s.repeated_configs) := by
  constructor
  · intro h
    have hcond : (coinO s.coinCtr || decide (CCT.NUM_REPEATED_CONFIGS ≤ s.current_trial))
        = true := by
      rcases h with h | h
      · simp [h]
      · simp [h]
    simp only [CCT.prepare_trial, hcond]
    exact ⟨rfl, rfl, rfl⟩
  · rintro ⟨hc, hlt⟩
    have hcond : (coinO s.coinCtr || decide (CCT.NUM_REPEATED_CONFIGS ≤ s.current_trial))
        = false := by
      simp [hc, Nat.not_le.mpr hlt]
    simp only [CCT.prepare_trial, hcond]
    exact ⟨rfl, rfl⟩

/-- Witness for C8: from the freshly set-up session state (within-block trial
index 0), a failed coin picks the stored repeated configuration at index
`0 mod 12` and leaves the pool untouched; a successful coin picks a fresh
novel configuration. -/
theorem C8_trial_type_selection_witness :
    (CCT.prepare_trial (fun _ => false) (fun _ => (fun _ => 0, fun _ => 0))
        (CCT.initState "p" fun _ => (fun _ => 0, fun _ => 0)) 100).current_config
      = some ((CCT.initState "p" fun _ => (fun _ => 0, fun _ => 0)).repeated_configs.getD
          0 default) ∧
    (CCT.prepare_trial (fun _ => true) (fun _ => (fun _ => 0, fun _ => 0))
        (CCT.initState "p" fun _ => (fun _ => 0, fun _ => 0)) 100).current_config
      = some (CCT.novelConfig (fun _ => 0, fun _ => 0)) := by
  constructor
  · exact ((C8_trial_type_selection (fun _ => false) (fun _ => (fun _ => 0, fun _ => 0))
      (CCT.initState "p" fun _ => (fun _ => 0, fun _ => 0)) 100).2 ⟨rfl, by decide⟩).1
  · exact ((C8_trial_type_selection (fun _ => true) (fun _ => (fun _ => 0, fun _ => 0))
      (CCT.initState "p" fun _ => (fun _ => 0, fun _ => 0)) 100).1 (Or.inl rfl)).1

/-- C7: for every pointer click during a CCT trial, the trial advances and
appends exactly one record if and only if the click lies inside some
stimulus's circular hit region; correctness is true exactly when the click
lies in the target's region; a click inside a distractor's region still
advances with correctness false; a click outside every hit region is
discarded with no state change and no log entry. -/
theorem C7_cct_click (cfg : CCT.Configuration) (pos : Int × Int) (s : CCT.ExpState)
    (now : Int) :
    (cfg.target ∈ cfg.stimuli →
      ((CCT.processClick cfg pos).isSome = true ↔
        ∃ stim ∈ cfg.stimuli, stim.contains_point pos = true)) ∧
    (CCT.processClick cfg pos = some true ↔ cfg.target.contains_point pos = true) ∧
    (CCT.processClick cfg pos = some false →
      cfg.target.contains_point pos = false ∧
      ∃ stim ∈ cfg.stimuli, stim.contains_point pos = true) ∧
    (s.current_config = some cfg → CCT.processClick cfg pos = none →
      CCT.trialEvents s now [.click 1 pos] = s) ∧
    (∀ c, s.current_config = some cfg → CCT.processClick cfg pos = some c →
      CCT.trialEvents s now [.click 1 pos]
          = CCT.next_trial (CCT.record_trial s now c) ∧
      (CCT.record_trial s now c).trial_results.length = s.trial_results.length + 1 ∧
      (CCT.next_trial (CCT.record_trial s now c)).trial_results
          = (CCT.record_trial s now c).trial_results) := by
  refine ⟨?_, ?_, ?_, ?_, ?_⟩
  · intro hmem
    cases h1 : cfg.target.contains_point pos
    · cases hf : cfg.stimuli.find? fun stim => stim.contains_point pos
      · simp only [CCT.processClick, h1, Bool.false_eq_true, if_false, hf,
          Option.isSome_none, false_iff, not_exists]
        rintro stim ⟨hstim, hcp⟩
        have hno := List.find?_eq_none.mp hf stim hstim
        simp [hcp] at hno
      · rename_i a
        simp only [CCT.processClick, h1, Bool.false_eq_true, if_false, hf,
          Option.isSome_some, true_iff]
        have hpa := List.find?_some hf
        exact ⟨a, List.mem_of_find?_eq_some hf, by simpa using hpa⟩
    · simp only [CCT.processClick, h1, if_true, Option.isSome_some, true_iff]
      exact ⟨cfg.target, hmem, h1⟩
  · cases h1 : cfg.target.contains_point pos
    · cases hf : cfg.stimuli.find? fun stim => stim.contains_point pos <;>
        simp [CCT.processClick, h1, hf]
    · simp [CCT.processClick, h1]
  · cases h1 : cfg.target.contains_point pos
    · cases hf : cfg.stimuli.find? fun stim => stim.contains_point pos
      · simp [CCT.processClick, h1, hf]
      · rename_i a
        intro
        have hpa := List.find?_some hf
        exact ⟨rfl, a, List.mem_of_find?_eq_some hf, by simpa using hpa⟩
    · simp [CCT.processClick, h1]
  · intro hcc hpc
    simp [CCT.trialEvents, hcc, hpc]
  · intro c hcc hpc
    refine ⟨by simp [CCT.trialEvents, hcc, hpc], by simp [CCT.record_trial], ?_⟩
    simp only [CCT.next_trial]
    split_ifs <;> rfl

/-- Witness for C7: with the concrete generated configuration (target on cell
(0,0), screen centre (200,100)), a click far from every stimulus leaves the
session state untouched, and a click is recorded correct exactly when it hits
the target's region. -/
theorem C7_cct_click_witness :
    CCT.trialEvents
        { CCT.initState "p" (fun _ => (fun _ => 0, fun _ => 0)) with
          current_config := some (CCT.novelConfig (fun _ => 0, fun _ => 0)) } 5000
        [.click 1 (0, 0)]
      = { CCT.initState "p" (fun _ => (fun _ => 0, fun _ => 0)) with
          current_config := some (CCT.novelConfig (fun _ => 0, fun _ => 0)) } ∧
    (CCT.processClick (CCT.novelConfig (fun _ => 0, fun _ => 0)) (200, 100) = some true ↔
      (CCT.novelConfig (fun _ => 0, fun _ => 0)).target.contains_point (200, 100) = true) := by
  constructor
  · exact (C7_cct_click (CCT.novelConfig (fun _ => 0, fun _ => 0)) (0, 0) _ 5000).2.2.2.1
      rfl (by decide)
  · exact (C7_cct_click (CCT.novelConfig (fun _ => 0, fun _ => 0)) (200, 100)
      (CCT.initState "p" (fun _ => (fun _ => 0, fun _ => 0))) 5000).2.1

/-- C2: for every deck and every trial slot, the outcome schedule is
generated once at setup (it is part of the constructed session state and no
machine step changes it) with length equal to the planned trial count; each
tuple satisfies reward = the deck's fixed constant, loss is either 0 or an
element of the deck's loss-value set, and net = reward − loss; drawing the
outcome for a given (deck, trialIndex) pair reads the precomputed tuple
(replay, never resampling). -/
theorem C2_outcome_schedule :
    (∀ (prop : IGT.Deck) (bern : Nat → Bool) (idx : Nat → Nat) (n : Nat),
      (IGT.gerarResultadosDeck prop bern idx n).length = n) ∧
    (∀ (prop : IGT.Deck) (bern : Nat → Bool) (idx : Nat → Nat) (n : Nat),
      prop.valores_perda ≠ [] →
      ∀ t ∈ IGT.gerarResultadosDeck prop bern idx n,
        t.1 = prop.recompensa ∧ (t.2.1 = 0 ∨ t.2.1 ∈ prop.valores_perda) ∧
        t.2.2 = t.1 - t.2.1) ∧
    (∀ (pid : String) (oA oB oC oD : IGT.DeckOracle) (b : IGT.Baralho),
      ((IGT.initIGT pid oA oB oC oD).resultados_baralhos.get b).length
        = IGT.NUM_TENTATIVAS) ∧
    (∀ (s : IGT.IGTState) (f : IGT.FrameIGT),
      (IGT.passoExecutar s f).resultados_baralhos = s.resultados_baralhos) ∧
    (∀ (s : IGT.IGTState) (frames : List IGT.FrameIGT),
      (IGT.executarLoop s frames).resultados_baralhos = s.resultados_baralhos) ∧
    (∀ (s : IGT.IGTState) (b : IGT.Baralho) (now : Int),
      (IGT.processarEscolha s b now).resultados_baralhos = s.resultados_baralhos ∧
      (IGT.processarEscolha s b now).dados = s.dados ++
        [{ tentativa := s.tentativa_atual + 1, baralho := b,
           recompensa := ((s.resultados_baralhos.get b).getD s.tentativa_atual (0,0,0)).1,
           perda := ((s.resultados_baralhos.get b).getD s.tentativa_atual (0,0,0)).2.1,
           liquido := ((s.resultados_baralhos.get b).getD s.tentativa_atual (0,0,0)).2.2,
           dinheiro_total := s.dinheiro
             + ((s.resultados_baralhos.get b).getD s.tentativa_atual (0,0,0)).2.2,
           tempo_reacao := now - s.tempo_inicio }]) := by
  refine ⟨?_, ?_, ?_, ?_, ?_, ?_⟩
  · intro prop bern idx n
    simp [IGT.gerarResultadosDeck]
  · intro prop bern idx n hne t ht
    simp only [IGT.gerarResultadosDeck, List.mem_map, List.mem_range] at ht
    obtain ⟨i, -, hi⟩ := ht
    rw [← hi]
    refine ⟨rfl, ?_, rfl⟩
    by_cases hb : bern i = true
    · right
      simp only [hb, if_true]
      have hlen : 0 < prop.valores_perda.length := List.length_pos.mpr hne
      rw [List.getD_eq_getElem _ _ (Nat.mod_lt _ hlen)]
      exact List.getElem_mem _
    · left
      simp [hb]
  · intro pid oA oB oC oD b
    cases b <;>
      simp [IGT.initIGT, IGT.gerarResultadosBaralhos, IGT.ResultadosBaralhos.get,
        IGT.gerarResultadosDeck]
  · intro s f
    exact (IGT.passoExecutar_inv s f).1
  · intro s frames
    exact (IGT.executarLoop_inv s frames).1
  · intro s b now
    refine ⟨(IGT.processarEscolha_inv s b now).1, ?_⟩
    simp only [IGT.processarEscolha]
    split_ifs <;> rfl

/-- Witness for C2: deck A with an always-losing Bernoulli oracle and choice
index 0 yields the single tuple (100, 150, −50), which satisfies the schedule
contract. -/
theorem C2_outcome_schedule_witness :
    (IGT.gerarResultadosDeck IGT.BARALHO_A (fun _ => true) (fun _ => 0) 1).length = 1 ∧
    (((100 : Int), (150 : Int), (-50 : Int)).1 = IGT.BARALHO_A.recompensa ∧
      (((100 : Int), (150 : Int), (-50 : Int)).2.1 = 0 ∨
        ((100 : Int), (150 : Int), (-50 : Int)).2.1 ∈ IGT.BARALHO_A.valores_perda) ∧
      ((100 : Int), (150 : Int), (-50 : Int)).2.2
        = ((100 : Int), (150 : Int), (-50 : Int)).1
            - ((100 : Int), (150 : Int), (-50 : Int)).2.1) := by
  refine ⟨C2_outcome_schedule.1 IGT.BARALHO_A (fun _ => true) (fun _ => 0) 1, ?_⟩
  exact C2_outcome_schedule.2.1 IGT.BARALHO_A (fun _ => true) (fun _ => 0) 1 (by decide)
    (100, 150, -50) (by decide)

/-- C6: for every qualifying IGT deck choice, the controller transitions to
the feedback state and starts the feedback clock; the feedback screen holds
(consuming no user input: a frame in the feedback state is exactly the timed
update on the event-queue-extended state) until the fixed display duration
has elapsed, then automatically returns to the main state — unless the trial
counter has reached the total planned trial count, in which case the choice
transitions to the results state. -/
theorem C6_igt_feedback_transition (s : IGT.IGTState) (b : IGT.Baralho) (now : Int)
    (f : IGT.FrameIGT) :
    ((IGT.processarEscolha s b now).estado
        = if IGT.NUM_TENTATIVAS ≤ s.tentativa_atual + 1 then .resultados else .feedback) ∧
    ((IGT.processarEscolha s b now).tempo_inicio_feedback = now) ∧
    (∀ fd, s.feedback_dados = some fd →
      now - s.tempo_inicio_feedback < IGT.DURACAO_FEEDBACK →
      IGT.desenharFeedback s now = s) ∧
    (∀ fd, s.feedback_dados = some fd →
      IGT.DURACAO_FEEDBACK ≤ now - s.tempo_inicio_feedback →
      (IGT.desenharFeedback s now).estado = .principal ∧
      (IGT.desenharFeedback s now).feedback_dados = none) ∧
    (s.estado = .feedback →
      IGT.passoExecutar s f
        = IGT.desenharFeedback { s with pending := s.pending ++ f.eventos } f.now) := by
  refine ⟨?_, ?_, ?_, ?_, ?_⟩
  · simp only [IGT.processarEscolha]
    split_ifs <;> rfl
  · simp only [IGT.processarEscolha]
    split_ifs <;> rfl
  · intro fd hfd hlt
    simp only [IGT.desenharFeedback, hfd]
    rw [if_neg (by omega)]
  · intro fd hfd hle
    simp only [IGT.desenharFeedback, hfd]
    rw [if_pos hle]
    exact ⟨rfl, rfl⟩
  · intro hst
    simp [IGT.passoExecutar, hst]

/-- Witness for C6: from the fresh session (trial counter 0 of 100), choosing
deck A enters the feedback state with the feedback clock at the choice time;
at 1000 ms into the feedback display nothing changes, at 1500 ms the state
returns to `principal` with the feedback data cleared. -/
theorem C6_igt_feedback_transition_witness :
    (IGT.processarEscolha (IGT.initIGT "p" ⟨fun _ => false, fun _ => 0⟩
        ⟨fun _ => false, fun _ => 0⟩ ⟨fun _ => false, fun _ => 0⟩
        ⟨fun _ => false, fun _ => 0⟩) .A 500).estado = .feedback ∧
    IGT.desenharFeedback
        { IGT.initIGT "p" ⟨fun _ => false, fun _ => 0⟩ ⟨fun _ => false, fun _ => 0⟩
            ⟨fun _ => false, fun _ => 0⟩ ⟨fun _ => false, fun _ => 0⟩ with
          estado := .feedback, feedback_dados := some (.A, 100, 0, 100),
          tempo_inicio_feedback := 1000 } 2000
      = { IGT.initIGT "p" ⟨fun _ => false, fun _ => 0⟩ ⟨fun _ => false, fun _ => 0⟩
            ⟨fun _ => false, fun _ => 0⟩ ⟨fun _ => false, fun _ => 0⟩ with
          estado := .feedback, feedback_dados := some (.A, 100, 0, 100),
          tempo_inicio_feedback := 1000 } ∧
    (IGT.desenharFeedback
        { IGT.initIGT "p" ⟨fun _ => false, fun _ => 0⟩ ⟨fun _ => false, fun _ => 0⟩
            ⟨fun _ => false, fun _ => 0⟩ ⟨fun _ => false, fun _ => 0⟩ with
          estado := .feedback, feedback_dados := some (.A, 100, 0, 100),
          tempo_inicio_feedback := 1000 } 2500).estado = .principal := by
  refine ⟨?_, ?_, ?_⟩
  · exact ((C6_igt_feedback_transition (IGT.initIGT "p" ⟨fun _ => false, fun _ => 0⟩
      ⟨fun _ => false, fun _ => 0⟩ ⟨fun _ => false, fun _ => 0⟩
      ⟨fun _ => false, fun _ => 0⟩) .A 500 ⟨0, []⟩).1).trans (by decide)
  · exact (C6_igt_feedback_transition _ .A 2000 ⟨0, []⟩).2.2.1 (.A, 100, 0, 100) rfl
      (by decide)
  · exact ((C6_igt_feedback_transition _ .A 2500 ⟨0, []⟩).2.2.2.1 (.A, 100, 0, 100) rfl
      (by decide)).1

/-- C3: for every finished IGT trial log, the net score equals (count of
picks from advantageous decks C and D) minus (count of picks from
disadvantageous decks A and B); each per-block score assigns trial `i` to
block `i / (totalTrials / blockCount)` (an advantageous pick contributing +1,
a disadvantageous pick −1); and when `totalTrials` is not evenly divisible by
`blockCount` the trailing trials (block index ≥ blockCount) are silently
excluded from every block. -/
theorem C3_igt_results (dados : List IGT.Registro) (nT nB : Nat) :
    (IGT.calcularResultados dados nT nB).pontuacao_liquida
      = (((dados.filter fun d => d.baralho = .C).length : Int)
          + ((dados.filter fun d => d.baralho = .D).length : Int))
        - (((dados.filter fun d => d.baralho = .A).length : Int)
          + ((dados.filter fun d => d.baralho = .B).length : Int)) ∧
    (IGT.calcularResultados dados nT nB).pontuacoes_bloco.length = nB ∧
    (0 < nT / nB → ∀ b, b < nB →
      (IGT.calcularResultados dados nT nB).pontuacoes_bloco.getD b 0
        = IGT.pontuacaoBlocoSpec dados nT nB b) ∧
    (∀ i b, b < nB → nB ≤ i / (nT / nB) →
      (if i < nT ∧ i / (nT / nB) = b
        then IGT.scoreBaralho (dados.getD i default).baralho else 0) = 0) := by
  refine ⟨?_, ?_, ?_, ?_⟩
  · obtain ⟨ha, hb, hc, hd⟩ := IGT.contagem_foldl dados ⟨0, 0, 0, 0⟩
    simp only [IGT.calcularResultados, ha, hb, hc, hd]
    push_cast
    ring
  · simp only [IGT.calcularResultados, IGT.pontuacoesBloco]
    rw [IGT.passoBloco_foldl_length]
    simp
  · intro _ b hb
    exact IGT.pontuacoesBloco_getD dados nT nB b hb
  · intro i b hb hge
    rw [if_neg]
    rintro ⟨-, h2⟩
    omega

/-- Witness for C3: the pick sequence [C, C, D, A] over 4 trials in 2 blocks
has net score (2+1) − 1 = 2; block 0 (trials 0-1, picks C,C) scores the
claimed per-block sum, which evaluates to 2. -/
theorem C3_igt_results_witness :
    (IGT.calcularResultados
        [registroTeste 1 .C, registroTeste 2 .C, registroTeste 3 .D, registroTeste 4 .A]
        4 2).pontuacao_liquida = 2 ∧
    (IGT.calcularResultados
        [registroTeste 1 .C, registroTeste 2 .C, registroTeste 3 .D, registroTeste 4 .A]
        4 2).pontuacoes_bloco.getD 0 0
      = IGT.pontuacaoBlocoSpec
          [registroTeste 1 .C, registroTeste 2 .C, registroTeste 3 .D, registroTeste 4 .A]
          4 2 0 ∧
    IGT.pontuacaoBlocoSpec
        [registroTeste 1 .C, registroTeste 2 .C, registroTeste 3 .D, registroTeste 4 .A]
        4 2 0 = 2 := by
  refine ⟨?_, ?_, by decide⟩
  · exact (C3_igt_results
      [registroTeste 1 .C, registroTeste 2 .C, registroTeste 3 .D, registroTeste 4 .A]
      4 2).1.trans (by decide)
  · exact (C3_igt_results
      [registroTeste 1 .C, registroTeste 2 .C, registroTeste 3 .D, registroTeste 4 .A]
      4 2).2.2.1 (by decide) 0 (by decide)

/-- Counterexample for C4: in the CCT, a window-close event during the fourth
trial — an abort after exactly three completed trials — terminates the
session with the three accumulated records never persisted (`saved = none`),
refuting "the exit path always persists the partial trial log". -/
theorem C4_counterexample_cct_abort :
    (CCT.runCCT coinTrue zeroGen sessaoCCT framesAborto).exited = true ∧
    (CCT.runCCT coinTrue zeroGen sessaoCCT framesAborto).trial_results.length = 3 ∧
    (CCT.runCCT coinTrue zeroGen sessaoCCT framesAborto).saved = none := by decide

/-- C4 (amended): in the IGT, an abort signal (escape or window-close) is
honored in each state that processes events (instructions, main, results),
and the exit path persists exactly the accumulated partial log whenever it is
nonempty — aborting after k ≥ 1 completed trials persists exactly those k
records, and each completed trial contributes exactly one record; with an
empty log nothing is persisted.  (The CCT does not share this guarantee: see
the counterexample.) -/
theorem C4_amended_persistence :
    (∀ (s : IGT.IGTState) (frames : List IGT.FrameIGT),
      s.salvo = none →
      (IGT.executarLoop s frames).executando = false →
      ((0 < (IGT.executarLoop s frames).dados.length →
        (IGT.executar s frames).salvo = some (IGT.executarLoop s frames).dados) ∧
       ((IGT.executarLoop s frames).dados.length = 0 →
        (IGT.executar s frames).salvo = none))) ∧
    (∀ (s : IGT.IGTState) (now : Int) (e : IGT.IGTEvent),
      e = .quit ∨ e = .keyEsc →
      (IGT.eventosInstrucoes now s [e]).executando = false ∧
      (IGT.eventosInstrucoes now s [e]).dados = s.dados ∧
      (IGT.eventosPrincipal now s [e]).executando = false ∧
      (IGT.eventosPrincipal now s [e]).dados = s.dados ∧
      (IGT.eventosResultados s [e]).executando = false ∧
      (IGT.eventosResultados s [e]).dados = s.dados) ∧
    (∀ (s : IGT.IGTState) (b : IGT.Baralho) (now : Int),
      (IGT.processarEscolha s b now).dados.length = s.dados.length + 1) := by
  refine ⟨?_, ?_, ?_⟩
  · intro s frames hsalvo hexec
    have hinv := (IGT.executarLoop_inv s frames).2
    constructor
    · intro hpos
      simp only [IGT.executar, hexec, if_false, Bool.false_eq_true, IGT.encerrar,
        if_pos hpos]
    · intro hzero
      simp only [IGT.executar, hexec, if_false, Bool.false_eq_true, IGT.encerrar,
        hzero]
      simp [hinv, hsalvo]
  · rintro s now e (rfl | rfl) <;>
      exact ⟨rfl, rfl, rfl, rfl, rfl, rfl⟩
  · intro s b now
    simp only [IGT.processarEscolha]
    split_ifs <;> simp

/-- Witness for C4 (amended): the concrete Escape-after-3-trials IGT session
exits its loop and persists exactly the 3 accumulated records. -/
theorem C4_amended_persistence_witness :
    (IGT.executar sessaoIGT framesAbortoIGT).salvo
      = some (IGT.executarLoop sessaoIGT framesAbortoIGT).dados ∧
    (IGT.executarLoop sessaoIGT framesAbortoIGT).dados.length = 3 := by
  refine ⟨(C4_amended_persistence.1 sessaoIGT framesAbortoIGT rfl (by decide)).1
    (by decide), by decide⟩

/-- Counterexample for C5: in the concrete IGT session, the controller
re-enters the main state at 5000 ms (feedback timeout after the first
choice), and the second qualifying click arrives at 6000 ms — a wall-clock
delta of 1000 ms between phase entry and response — yet the recorded
reaction time of the second trial is 3000 ms (measured from the previous
choice at 3000 ms, feedback interval included). -/
theorem C5_counterexample_igt_baseline :
    (IGT.executarLoop sessaoIGT (framesReplay.take 4)).estado = .principal ∧
    (IGT.executarLoop sessaoIGT (framesReplay.take 4)).entradaPrincipal = 5000 ∧
    ((IGT.executarLoop sessaoIGT framesReplay).dados.getD 1 default).tempo_reacao
      = 3000 ∧
    (3000 : Int) ≠ 6000 - 5000 := by decide

/-- C5 (amended): in the CCT, the recorded reaction time equals the
wall-clock delta between entry into the trial phase and the qualifying click
— the fixation-expiry step that enters the trial phase stamps the baseline
`trial_start_time := now`, and a recorded trial stores
`now − trial_start_time`.  In the IGT, a choice stores
`now − tempo_inicio` and re-stamps the baseline to the choice's own
timestamp; the automatic feedback → main return does NOT re-stamp the
baseline, and the main screen stamps it only at the very first draw of the
first trial — so from the second trial onward the recorded reaction time is
measured from the previous choice and includes the feedback interval, not
from re-entry into the main state. -/
theorem C5_amended_reaction_time :
    (∀ (s : CCT.ExpState) (now : Int) (c : Bool),
      (CCT.record_trial s now c).trial_results.map (fun r => r.response_time)
        = (s.trial_results.map fun r => r.response_time) ++ [now - s.trial_start_time]) ∧
    (∀ (coinO : Nat → Bool) (genO : Nat → (Nat → Nat) × (Nat → Nat))
        (s : CCT.ExpState) (now : Int),
      s.fixation_start_time ≠ 0 →
      CCT.FIXATION_DURATION ≤ now - s.fixation_start_time →
      (CCT.show_fixation coinO genO s now).state = .trial ∧
      (CCT.show_fixation coinO genO s now).trial_start_time = now) ∧
    (∀ (s : IGT.IGTState) (b : IGT.Baralho) (now : Int),
      (IGT.processarEscolha s b now).dados.map (fun r => r.tempo_reacao)
        = (s.dados.map fun r => r.tempo_reacao) ++ [now - s.tempo_inicio] ∧
      (IGT.processarEscolha s b now).tempo_inicio = now) ∧
    (∀ (s : IGT.IGTState) (now : Int),
      (IGT.desenharFeedback s now).tempo_inicio = s.tempo_inicio) ∧
    (∀ (s : IGT.IGTState) (now : Int),
      (IGT.desenharTelaPrincipal s now).tempo_inicio
        = if s.tentativa_atual = 0 ∧ s.tempo_inicio = 0 then now else s.tempo_inicio) := by
  refine ⟨?_, ?_, ?_, ?_, ?_⟩
  · intro s now c
    simp [CCT.record_trial]
  · intro coinO genO s now hneq hle
    simp only [CCT.show_fixation, if_neg hneq, if_pos hle, CCT.prepare_trial]
    split_ifs <;> exact ⟨rfl, rfl⟩
  · intro s b now
    constructor
    · simp only [IGT.processarEscolha]
      split_ifs <;> simp
    · simp only [IGT.processarEscolha]
      split_ifs <;> rfl
  · intro s now
    simp only [IGT.desenharFeedback]
    rcases s.feedback_dados with - | fd
    · rfl
    · simp only
      split_ifs <;> rfl
  · intro s now
    simp only [IGT.desenharTelaPrincipal]
    split_ifs <;> rfl

/-- Witness for C5 (amended): a concrete fixation expiry (entered at 2000 ms,
checked at 3000 ms) enters the trial phase with baseline 3000; a concrete
choice at 3000 ms from the fresh session (baseline stamped 1000 at the first
main draw) records 2000 ms and re-stamps the baseline to 3000. -/
theorem C5_amended_reaction_time_witness :
    (CCT.show_fixation coinTrue zeroGen
        { sessaoCCT with state := .fixation, fixation_start_time := 2000 } 3000).state
      = .trial ∧
    (CCT.show_fixation coinTrue zeroGen
        { sessaoCCT with state := .fixation, fixation_start_time := 2000 } 3000).trial_start_time
      = 3000 ∧
    (IGT.processarEscolha { sessaoIGT with tempo_inicio := 1000 } .A 3000).dados.map
        (fun r => r.tempo_reacao) = [2000] ∧
    (IGT.processarEscolha { sessaoIGT with tempo_inicio := 1000 } .A 3000).tempo_inicio
      = 3000 := by
  have h2 := C5_amended_reaction_time.2.1 coinTrue zeroGen
    { sessaoCCT with state := .fixation, fixation_start_time := 2000 } 3000
    (by decide) (by decide)
  have h3 := C5_amended_reaction_time.2.2.1 { sessaoIGT with tempo_inicio := 1000 } .A 3000
  exact ⟨h2.1, h2.2, by rw [h3.1]; decide, h3.2⟩
